import Mathlib

/-! Verification of the natural-language specification of the
`cliff_detector` component (kinect_nav_tools) against a shallow
embedding of the code.

The repository ships only the class header
`src/cliff_detector/include/cliff_detector/cliff_detector.h`; method
bodies are absent.  Members implemented inline in the header
(`setPublishDepthEnable`, `setCamModelUpdate`,
`setParametersConfigurated` and the getters) are embedded from that
source directly.  Every other operation is modelled from the
specification, as indicated in each doc comment.

Numeric embedding: C++ `float`/`double` configuration values are
embedded as `ℚ` (exact scalar stores and comparisons), the geometric
real-valued computations (trigonometry of rays) as `ℝ`, `uint16`
depth samples and the millimetre ground-distance table as `ℕ`
(matching `std::vector<unsigned int> dist_to_ground_`).
-/

namespace CliffDetectorSpec

/-- Embedding of `cv::Point3d`: a 3D vector with real coordinates,
assumed to start at the origin. -/
structure Point3d where
  x : ℝ
  y : ℝ
  z : ℝ

/-- Dot product of two 3D vectors. -/
def dot3 (a b : Point3d) : ℝ := a.x * b.x + a.y * b.y + a.z * b.z

/-- Modelled from the spec: body of `CliffDetector::lengthOfVector` is
absent from the repository; the header documents it as the Euclidean
norm `sqrt(x^2+y^2+z^2)` of a vector starting at the origin. -/
noncomputable def lengthOfVector (v : Point3d) : ℝ :=
  Real.sqrt (v.x ^ 2 + v.y ^ 2 + v.z ^ 2)

/-- Modelled from the spec: body of `CliffDetector::angleBetweenRays`
is absent from the repository; the header documents the equation
`angle = arccos(a*b/(|a||b|))`. -/
noncomputable def angleBetweenRays (ray1 ray2 : Point3d) : ℝ :=
  Real.arccos (dot3 ray1 ray2 / (lengthOfVector ray1 * lengthOfVector ray2))

/-- Embedding of `image_geometry::PinholeCameraModel` at the interface
the detector uses: an initialisation flag, the full resolution and the
pinhole intrinsics. -/
structure PinholeCameraModel where
  initialized : Bool
  width : ℕ
  height : ℕ
  fx : ℚ
  fy : ℚ
  cx : ℚ
  cy : ℚ

/-- Modelled from the spec: the camera model's pixel-to-ray projection
(`rayFor(pixel) -> direction`, spec 4.1) used by the detector; the
standard pinhole back-projection of a pixel to a direction vector. -/
noncomputable def rayFor (cam : PinholeCameraModel) (u v : ℚ) : Point3d :=
  ⟨((u : ℝ) - (cam.cx : ℝ)) / (cam.fx : ℝ), ((v : ℝ) - (cam.cy : ℝ)) / (cam.fy : ℝ), 1⟩

/-- Embedding of the borrowed depth frame: a `uint16` depth image in
millimetres (0 = invalid / no return) with width/height metadata.
`data r c` is the sample at image row `r`, column `c`. -/
structure DepthFrame where
  width : ℕ
  height : ℕ
  data : ℕ → ℕ → ℕ

/-- Replace one pixel of a depth frame (used to state that invalid
pixels do not influence the result). -/
def updatePixel (f : DepthFrame) (p : ℕ × ℕ) (v : ℕ) : DepthFrame :=
  { f with data := fun r c => if r = p.1 ∧ c = p.2 then v else f.data r c }

/-- Embedding of the private state of `cliff_detector::CliffDetector`
(header lines 179-199): configuration scalars, the behaviour flags and
the three cached geometry tables.  The `tables_stale` flag models the
spec's ConfigurationStore dirty flag ("dirty-flags that force table
rebuilds", spec 2 and 4.5). -/
structure CliffDetector where
  range_min : ℚ
  range_max : ℚ
  sensor_mount_height : ℚ
  sensor_tilt_angle : ℚ
  publish_depth_enable : Bool
  cam_model_update : Bool
  used_depth_height : ℕ
  block_size : ℕ
  block_points_thresh : ℕ
  depth_image_step_row : ℕ
  depth_image_step_col : ℕ
  ground_margin : ℚ
  depth_sensor_params_update : Bool
  tables_stale : Bool
  dist_to_ground : List ℕ
  tilt_compensation_factor : List ℝ
  delta_row : List ℝ

/-- Source (header line 70): `setPublishDepthEnable` stores the flag. -/
def CliffDetector.setPublishDepthEnable (s : CliffDetector) (enable : Bool) : CliffDetector :=
  { s with publish_depth_enable := enable }

/-- Source (header line 75): getter for the publish flag. -/
def CliffDetector.getPublishDepthEnable (s : CliffDetector) : Bool :=
  s.publish_depth_enable

/-- Source (header line 79): `setCamModelUpdate` stores the flag. -/
def CliffDetector.setCamModelUpdate (s : CliffDetector) (u : Bool) : CliffDetector :=
  { s with cam_model_update := u }

/-- Source (header line 116): `setParametersConfigurated` stores the
flag `depth_sensor_params_update`. -/
def CliffDetector.setParametersConfigurated (s : CliffDetector) (u : Bool) : CliffDetector :=
  { s with depth_sensor_params_update := u }

/-- Source (header line 54): getter for the sensor mount height. -/
def CliffDetector.getSensorMountHeight (s : CliffDetector) : ℚ :=
  s.sensor_mount_height

/-- Source (header line 65): getter for the sensor tilt angle. -/
def CliffDetector.getSensorTiltAngle (s : CliffDetector) : ℚ :=
  s.sensor_tilt_angle

/-- Modelled from the spec: body of `setMinRange` is absent; a plain
setter (spec 4.5), marking the geometry tables stale (range bounds are
listed as a rebuild trigger in spec 4.2). -/
def CliffDetector.setMinRange (s : CliffDetector) (rmin : ℚ) : CliffDetector :=
  { s with range_min := rmin, tables_stale := true }

/-- Modelled from the spec: body of `setMaxRange` is absent; a plain
setter (spec 4.5), marking the geometry tables stale. -/
def CliffDetector.setMaxRange (s : CliffDetector) (rmax : ℚ) : CliffDetector :=
  { s with range_max := rmax, tables_stale := true }

/-- Modelled from the spec: body of `setSensorMountHeight` is absent; a
plain setter (spec 4.5), marking the geometry tables stale. -/
def CliffDetector.setSensorMountHeight (s : CliffDetector) (height : ℚ) : CliffDetector :=
  { s with sensor_mount_height := height, tables_stale := true }

/-- Modelled from the spec: body of `setSensorTiltAngle` is absent; a
plain setter (spec 4.5), marking the geometry tables stale. -/
def CliffDetector.setSensorTiltAngle (s : CliffDetector) (angle : ℚ) : CliffDetector :=
  { s with sensor_tilt_angle := angle, tables_stale := true }

/-- Modelled from the spec: body of `setUsedDepthHeight` is absent; a
plain setter (spec 4.5), marking the geometry tables stale. -/
def CliffDetector.setUsedDepthHeight (s : CliffDetector) (height : ℕ) : CliffDetector :=
  { s with used_depth_height := height, tables_stale := true }

/-- Modelled from the spec: body of `setBlockSize` is absent; a plain
setter (spec 4.5); block size does not affect the geometry tables. -/
def CliffDetector.setBlockSize (s : CliffDetector) (size : ℕ) : CliffDetector :=
  { s with block_size := size }

/-- Modelled from the spec: body of `setBlockPointsThresh` is absent; a
plain setter (spec 4.5). -/
def CliffDetector.setBlockPointsThresh (s : CliffDetector) (thresh : ℕ) : CliffDetector :=
  { s with block_points_thresh := thresh }

/-- Modelled from the spec: body of `setDepthImgStepRow` is absent; a
plain setter (spec 4.5). -/
def CliffDetector.setDepthImgStepRow (s : CliffDetector) (step : ℕ) : CliffDetector :=
  { s with depth_image_step_row := step }

/-- Modelled from the spec: body of `setDepthImgStepCol` is absent; a
plain setter (spec 4.5). -/
def CliffDetector.setDepthImgStepCol (s : CliffDetector) (step : ℕ) : CliffDetector :=
  { s with depth_image_step_col := step }

/-- Modelled from the spec: body of `setGroundMargin` is absent; a
plain setter (spec 4.5). -/
def CliffDetector.setGroundMargin (s : CliffDetector) (margin : ℚ) : CliffDetector :=
  { s with ground_margin := margin }

/-- Sensor tilt angle converted from the stored degrees to radians. -/
noncomputable def tiltRad (s : CliffDetector) : ℝ :=
  (s.sensor_tilt_angle : ℝ) * Real.pi / 180

/-- Modelled from the spec: per-row angular offset from the optical
axis (spec 4.2, `calcDeltaAngleForRows`): the used region's rows get a
linear interpolation of the vertical field of view, negative above the
axis and positive below it, matching the header signature that receives
a single `vertical_fov` value.  Row index `i` counts from the top of
the used region. -/
noncomputable def deltaRowVal (s : CliffDetector) (vertical_fov : ℝ) (i : ℕ) : ℝ :=
  vertical_fov * (i : ℝ) / ((s.used_depth_height - 1 : ℕ) : ℝ) - vertical_fov / 2

/-- Modelled from the spec: body of
`CliffDetector::calcDeltaAngleForImgRows` is absent; it fills the
delta-angle table for the `used_depth_height` rows of the used region
(spec 3 and 4.2). -/
noncomputable def calcDeltaAngleForImgRows (s : CliffDetector) (vertical_fov : ℝ) : CliffDetector :=
  { s with delta_row :=
      (List.range s.used_depth_height).map (fun i => deltaRowVal s vertical_fov i) }

/-- Conversion of a metre value to integer millimetres, truncating
toward zero as the C++ float-to-unsigned conversion does. -/
def metersToMM (q : ℚ) : ℤ :=
  (1000 * q.num).tdiv (q.den : ℤ)

/-- Sentinel ground distance, in millimetres, stored for rows whose ray
does not point toward the ground ("no ground expected", spec 4.2); the
maximal configured range is used as the sentinel. -/
def groundSentinel (s : CliffDetector) : ℕ :=
  (metersToMM s.range_max).toNat

/-- Modelled from the spec: body of
`CliffDetector::calcGroundDistancesForImgRows` is absent; per spec 4.2
it computes, for each used row, the expected distance to the ground
along that row's ray from the mount height and the row's angle
`delta + tilt`, clamping rows at or above the horizon
(`delta + tilt <= 0`) to the sentinel, and stores integer millimetres
(the header declares `std::vector<unsigned int> dist_to_ground_`). -/
noncomputable def calcGroundDistancesForImgRows (s : CliffDetector) : CliffDetector :=
  { s with dist_to_ground :=
      (List.range s.used_depth_height).map (fun i =>
        let alpha : ℝ := s.delta_row.getD i 0 + tiltRad s
        if alpha ≤ 0 then groundSentinel s
        else Nat.floor ((1000 * (s.sensor_mount_height : ℝ)) / Real.sin alpha)) }

/-- Modelled from the spec: body of
`CliffDetector::calcTiltCompensationFactorsForImgRows` is absent; per
spec 4.2 the factor for a row derives from the cosine of that row's
delta angle relative to the optical axis. -/
noncomputable def calcTiltCompensationFactorsForImgRows (s : CliffDetector) : CliffDetector :=
  { s with tilt_compensation_factor :=
      (List.range s.used_depth_height).map (fun i => Real.cos (s.delta_row.getD i 0)) }

/-- Modelled from the spec: the synchronous geometry-table rebuild
(spec 4.2): the three `calc...ForImgRows` functions run in sequence on
the detector state. -/
noncomputable def rebuildGeometry (s : CliffDetector) (vertical_fov : ℝ) : CliffDetector :=
  calcTiltCompensationFactorsForImgRows
    (calcGroundDistancesForImgRows (calcDeltaAngleForImgRows s vertical_fov))

/-- Geometry-table index of an image row: the tables cover the
`used_depth_height` rows nearest the image bottom (spec 3), so image
row `r` maps to table entry `r - (height - used_depth_height)`. -/
def tableIdx (s : CliffDetector) (f : DepthFrame) (r : ℕ) : ℕ :=
  r - (f.height - s.used_depth_height)

/-- Expected ground distance (mm) for a table index, read from the
given ground-distance table. -/
def distAt (dist : List ℕ) (i : ℕ) : ℕ := dist.getD i 0

/-- Tilt-compensation factor for a table index, read from the given
factor table. -/
def factorAt (factor : List ℝ) (i : ℕ) : ℝ := factor.getD i 1

/-- Modelled from the spec: pixel validity test of the block
classifier (spec 4.3 step 1): a raw sample is skipped when it is 0 or
lies outside `[range_min, range_max]` converted to millimetres. -/
def pixelValidB (s : CliffDetector) (d : ℕ) : Bool :=
  decide (d ≠ 0 ∧ metersToMM s.range_min ≤ (d : ℤ) ∧ (d : ℤ) ≤ metersToMM s.range_max)

/-- Modelled from the spec: the cliff comparison of the block
classifier (spec 4.3 steps 2-3): the raw sample corrected by the row's
tilt-compensation factor is compared against the row's expected ground
distance plus `ground_margin` (metres, hence `1000 *` in mm). -/
noncomputable def cliffCompB (s : CliffDetector) (dist : List ℕ) (factor : List ℝ)
    (f : DepthFrame) (p : ℕ × ℕ) : Bool :=
  decide ((f.data p.1 p.2 : ℝ) * factorAt factor (tableIdx s f p.1) >
    (distAt dist (tableIdx s f p.1) : ℝ) + 1000 * (s.ground_margin : ℝ))

/-- A sampled pixel votes "cliff" when it is valid and its corrected
distance exceeds the expected ground distance plus the margin. -/
noncomputable def pixelCliffB (s : CliffDetector) (dist : List ℕ) (factor : List ℝ)
    (f : DepthFrame) (p : ℕ × ℕ) : Bool :=
  pixelValidB s (f.data p.1 p.2) && cliffCompB s dist factor f p

/-- A sampled pixel votes "ground" when it is valid and its corrected
distance does not exceed the bound (spec 4.3 step 3, "otherwise"). -/
noncomputable def pixelGroundB (s : CliffDetector) (dist : List ℕ) (factor : List ℝ)
    (f : DepthFrame) (p : ℕ × ℕ) : Bool :=
  pixelValidB s (f.data p.1 p.2) && !cliffCompB s dist factor f p

/-- The pixel positions of the square block whose top-left corner is
`(r0, c0)` (spec 4.3: blocks of size `block_size x block_size`). -/
def blockPixels (bs r0 c0 : ℕ) : List (ℕ × ℕ) :=
  (List.range bs).flatMap (fun a => (List.range bs).map (fun b => (r0 + a, c0 + b)))

/-- Cliff counter of a block (spec 4.3 step 3). -/
noncomputable def cliffPointCount (s : CliffDetector) (dist : List ℕ) (factor : List ℝ)
    (f : DepthFrame) (r0 c0 : ℕ) : ℕ :=
  (blockPixels s.block_size r0 c0).countP (fun p => pixelCliffB s dist factor f p)

/-- Ground counter of a block (spec 4.3 step 3). -/
noncomputable def groundPointCount (s : CliffDetector) (dist : List ℕ) (factor : List ℝ)
    (f : DepthFrame) (r0 c0 : ℕ) : ℕ :=
  (blockPixels s.block_size r0 c0).countP (fun p => pixelGroundB s dist factor f p)

/-- Number of valid sampled pixels of a block. -/
def validPointCount (s : CliffDetector) (f : DepthFrame) (r0 c0 : ℕ) : ℕ :=
  (blockPixels s.block_size r0 c0).countP (fun p => pixelValidB s (f.data p.1 p.2))

/-- Modelled from the spec: block classification (spec 4.3 step 4): a
block is a cliff block iff its cliff counter reaches
`block_points_thresh` (comparison `>=`). -/
noncomputable def blockIsCliff (s : CliffDetector) (dist : List ℕ) (factor : List ℝ)
    (f : DepthFrame) (r0 c0 : ℕ) : Bool :=
  decide (s.block_points_thresh ≤ cliffPointCount s dist factor f r0 c0)

/-- Top rows of the blocks scanned in the used region: starts stepped
by `depth_image_step_row` from the top of the used region, whole block
inside the image (spec 4.3: blocks stepped by `(row_step, col_step)`
across the used region). -/
def rowStarts (s : CliffDetector) (f : DepthFrame) : List ℕ :=
  (List.range f.height).filter (fun r =>
    decide (f.height - s.used_depth_height ≤ r) &&
    decide ((r - (f.height - s.used_depth_height)) % s.depth_image_step_row = 0) &&
    decide (r + s.block_size ≤ f.height))

/-- Left columns of the blocks scanned: starts stepped by
`depth_image_step_col`, whole block inside the image. -/
def colStarts (s : CliffDetector) (f : DepthFrame) : List ℕ :=
  (List.range f.width).filter (fun c =>
    decide (c % s.depth_image_step_col = 0) && decide (c + s.block_size ≤ f.width))

/-- All scanned blocks of a frame, as (top row, left column) pairs. -/
def allBlocks (s : CliffDetector) (f : DepthFrame) : List (ℕ × ℕ) :=
  (rowStarts s f).flatMap (fun r0 => (colStarts s f).map (fun c0 => (r0, c0)))

/-- The scanned blocks classified as cliff blocks. -/
noncomputable def cliffBlocks (s : CliffDetector) (dist : List ℕ) (factor : List ℝ)
    (f : DepthFrame) : List (ℕ × ℕ) :=
  (allBlocks s f).filter (fun b => blockIsCliff s dist factor f b.1 b.2)

/-- Modelled from the spec: polygon assembly (spec 4.4): per block
column, the topmost (nearest-to-horizon) cliff block, in left-to-right
column order; columns without a qualifying block contribute nothing. -/
noncomputable def topCliffBlocks (s : CliffDetector) (dist : List ℕ) (factor : List ℝ)
    (f : DepthFrame) : List (ℕ × ℕ) :=
  (colStarts s f).filterMap (fun c0 =>
    (((rowStarts s f).filter (fun r0 => blockIsCliff s dist factor f r0 c0)).head?).map
      (fun r0 => (r0, c0)))

/-- Modelled from the spec: back-projection of a qualifying block's
representative pixel (its centre) to a ground-frame point (spec 4.4):
the pixel row's depression angle combined with the mount height and
tilt gives the forward distance, the pixel column the lateral offset. -/
noncomputable def toGroundPoint (s : CliffDetector) (cam : PinholeCameraModel)
    (b : ℕ × ℕ) : ℝ × ℝ :=
  let repx : ℚ := (b.2 : ℚ) + (s.block_size : ℚ) / 2
  let repy : ℚ := (b.1 : ℚ) + (s.block_size : ℚ) / 2
  let theta : ℝ := Real.arctan (((repy : ℝ) - (cam.cy : ℝ)) / (cam.fy : ℝ)) + tiltRad s
  let yfwd : ℝ := (s.sensor_mount_height : ℝ) / Real.tan theta
  (yfwd * ((repx : ℝ) - (cam.cx : ℝ)) / (cam.fx : ℝ), yfwd)

/-- Modelled from the spec: body of
`CliffDetector::findCliffInDepthImage` is absent; per spec 4.3-4.4 it
scans the frame in blocks against the given geometry tables and emits
the ground-frame points of the qualifying blocks. -/
noncomputable def findCliffInDepthImage (s : CliffDetector) (cam : PinholeCameraModel)
    (dist : List ℕ) (factor : List ℝ) (f : DepthFrame) : List (ℝ × ℝ) :=
  (topCliffBlocks s dist factor f).map (toGroundPoint s cam)

/-- Detection failure modes of spec 7. -/
inductive DetectErr where
  | invalidModel : DetectErr
  | invalidConfiguration : DetectErr
  | malformedFrame : DetectErr
deriving DecidableEq

/-- Modelled from the spec: configuration invariant of spec 3
(`range_min < range_max`, `block_size > 0`, `row_step, col_step >= 1`). -/
def validConfig (s : CliffDetector) : Bool :=
  decide (s.range_min < s.range_max ∧ 0 < s.block_size ∧
    1 ≤ s.depth_image_step_row ∧ 1 ≤ s.depth_image_step_col)

/-- Modelled from the spec: the error checks of a detection call
(spec 7): an uninitialised camera model or one inconsistent with the
frame dimensions is `invalidModel`; a configuration violating the
spec-3 invariant is `invalidConfiguration`, detected lazily at the
call; a frame inconsistent with `used_depth_height` is
`malformedFrame`.  These checks read no pixel data. -/
def detectErr (s : CliffDetector) (cam : PinholeCameraModel) (f : DepthFrame) :
    Option DetectErr :=
  if !cam.initialized then some DetectErr.invalidModel
  else if !(decide (f.width = cam.width ∧ f.height = cam.height)) then
    some DetectErr.invalidModel
  else if !validConfig s then some DetectErr.invalidConfiguration
  else if !(decide (s.used_depth_height ≤ f.height)) then some DetectErr.malformedFrame
  else none

/-- Modelled from the spec: the vertical field of view (spec 4.2,
`fieldOfView`): the signed angles of the top-of-used-region ray and of
the bottom-of-image ray relative to the optical-axis ray. -/
noncomputable def fieldOfView (cam : PinholeCameraModel) (x1 y1 xc yc x2 y2 : ℚ) :
    ℝ × ℝ :=
  (-(angleBetweenRays (rayFor cam xc yc) (rayFor cam x1 y1)),
    angleBetweenRays (rayFor cam xc yc) (rayFor cam x2 y2))

/-- Vertical field of view of the used region, derived from the camera
model (spec 4.2). -/
noncomputable def vertFov (s : CliffDetector) (cam : PinholeCameraModel) : ℝ :=
  let p := fieldOfView cam cam.cx ((cam.height : ℚ) - (s.used_depth_height : ℚ))
    cam.cx cam.cy cam.cx ((cam.height : ℚ) - 1)
  p.2 - p.1

/-- The geometry tables a detection call uses: rebuilt lazily when the
dirty flags are set, otherwise the cached tables (spec 4.2). -/
noncomputable def tablesFor (s : CliffDetector) (cam : PinholeCameraModel) :
    List ℕ × List ℝ :=
  if s.tables_stale || s.cam_model_update then
    ((rebuildGeometry s (vertFov s cam)).dist_to_ground,
      (rebuildGeometry s (vertFov s cam)).tilt_compensation_factor)
  else (s.dist_to_ground, s.tilt_compensation_factor)

/-- Modelled from the spec: body of `CliffDetector::detectCliff` is
absent; per spec 5-7 a call either fails outright on one of the spec-7
error conditions or yields the polygon of the block classifier run
against the (lazily rebuilt) geometry tables. -/
noncomputable def detectCliff (s : CliffDetector) (cam : PinholeCameraModel)
    (f : DepthFrame) : Except DetectErr (List (ℝ × ℝ)) :=
  match detectErr s cam f with
  | some e => Except.error e
  | none =>
      Except.ok (findCliffInDepthImage s cam (tablesFor s cam).1 (tablesFor s cam).2 f)

/-! ## Theorems -/

/-- C10: `setPublishDepthEnable`, `setCamModelUpdate` and
`setParametersConfigurated` (implemented inline in the header) each
write only their own boolean flag: every configuration field, the
other flags and all three geometry tables are unchanged. -/
theorem flag_setters_write_only_own_flag (s : CliffDetector) (b : Bool) :
    ((s.setPublishDepthEnable b).publish_depth_enable = b ∧
      (s.setPublishDepthEnable b).range_min = s.range_min ∧
      (s.setPublishDepthEnable b).range_max = s.range_max ∧
      (s.setPublishDepthEnable b).sensor_mount_height = s.sensor_mount_height ∧
      (s.setPublishDepthEnable b).sensor_tilt_angle = s.sensor_tilt_angle ∧
      (s.setPublishDepthEnable b).cam_model_update = s.cam_model_update ∧
      (s.setPublishDepthEnable b).used_depth_height = s.used_depth_height ∧
      (s.setPublishDepthEnable b).block_size = s.block_size ∧
      (s.setPublishDepthEnable b).block_points_thresh = s.block_points_thresh ∧
      (s.setPublishDepthEnable b).depth_image_step_row = s.depth_image_step_row ∧
      (s.setPublishDepthEnable b).depth_image_step_col = s.depth_image_step_col ∧
      (s.setPublishDepthEnable b).ground_margin = s.ground_margin ∧
      (s.setPublishDepthEnable b).depth_sensor_params_update = s.depth_sensor_params_update ∧
      (s.setPublishDepthEnable b).tables_stale = s.tables_stale ∧
      (s.setPublishDepthEnable b).dist_to_ground = s.dist_to_ground ∧
      (s.setPublishDepthEnable b).tilt_compensation_factor = s.tilt_compensation_factor ∧
      (s.setPublishDepthEnable b).delta_row = s.delta_row) ∧
    ((s.setCamModelUpdate b).cam_model_update = b ∧
      (s.setCamModelUpdate b).range_min = s.range_min ∧
      (s.setCamModelUpdate b).range_max = s.range_max ∧
      (s.setCamModelUpdate b).sensor_mount_height = s.sensor_mount_height ∧
      (s.setCamModelUpdate b).sensor_tilt_angle = s.sensor_tilt_angle ∧
      (s.setCamModelUpdate b).publish_depth_enable = s.publish_depth_enable ∧
      (s.setCamModelUpdate b).used_depth_height = s.used_depth_height ∧
      (s.setCamModelUpdate b).block_size = s.block_size ∧
      (s.setCamModelUpdate b).block_points_thresh = s.block_points_thresh ∧
      (s.setCamModelUpdate b).depth_image_step_row = s.depth_image_step_row ∧
      (s.setCamModelUpdate b).depth_image_step_col = s.depth_image_step_col ∧
      (s.setCamModelUpdate b).ground_margin = s.ground_margin ∧
      (s.setCamModelUpdate b).depth_sensor_params_update = s.depth_sensor_params_update ∧
      (s.setCamModelUpdate b).tables_stale = s.tables_stale ∧
      (s.setCamModelUpdate b).dist_to_ground = s.dist_to_ground ∧
      (s.setCamModelUpdate b).tilt_compensation_factor = s.tilt_compensation_factor ∧
      (s.setCamModelUpdate b).delta_row = s.delta_row) ∧
    ((s.setParametersConfigurated b).depth_sensor_params_update = b ∧
      (s.setParametersConfigurated b).range_min = s.range_min ∧
      (s.setParametersConfigurated b).range_max = s.range_max ∧
      (s.setParametersConfigurated b).sensor_mount_height = s.sensor_mount_height ∧
      (s.setParametersConfigurated b).sensor_tilt_angle = s.sensor_tilt_angle ∧
      (s.setParametersConfigurated b).publish_depth_enable = s.publish_depth_enable ∧
      (s.setParametersConfigurated b).cam_model_update = s.cam_model_update ∧
      (s.setParametersConfigurated b).used_depth_height = s.used_depth_height ∧
      (s.setParametersConfigurated b).block_size = s.block_size ∧
      (s.setParametersConfigurated b).block_points_thresh = s.block_points_thresh ∧
      (s.setParametersConfigurated b).depth_image_step_row = s.depth_image_step_row ∧
      (s.setParametersConfigurated b).depth_image_step_col = s.depth_image_step_col ∧
      (s.setParametersConfigurated b).ground_margin = s.ground_margin ∧
      (s.setParametersConfigurated b).tables_stale = s.tables_stale ∧
      (s.setParametersConfigurated b).dist_to_ground = s.dist_to_ground ∧
      (s.setParametersConfigurated b).tilt_compensation_factor = s.tilt_compensation_factor ∧
      (s.setParametersConfigurated b).delta_row = s.delta_row) := by
  refine ⟨⟨rfl, ?_⟩, ⟨rfl, ?_⟩, ⟨rfl, ?_⟩⟩ <;>
    exact ⟨rfl, rfl, rfl, rfl, rfl, rfl, rfl, rfl, rfl, rfl, rfl, rfl, rfl, rfl, rfl, rfl⟩

set_option maxHeartbeats 1600000 in
/-- C5: geometry-table rebuilding is idempotent: running the three
`calc...ForImgRows` functions twice with unchanged inputs leaves the
three tables identical to running them once. -/
theorem rebuildGeometry_idempotent (s : CliffDetector) (vertical_fov : ℝ) :
    (rebuildGeometry (rebuildGeometry s vertical_fov) vertical_fov).delta_row =
      (rebuildGeometry s vertical_fov).delta_row ∧
    (rebuildGeometry (rebuildGeometry s vertical_fov) vertical_fov).dist_to_ground =
      (rebuildGeometry s vertical_fov).dist_to_ground ∧
    (rebuildGeometry (rebuildGeometry s vertical_fov) vertical_fov).tilt_compensation_factor =
      (rebuildGeometry s vertical_fov).tilt_compensation_factor :=
  ⟨rfl, rfl, rfl⟩

/-- C6: after every rebuild the three geometry tables have equal
lengths, each equal to the configured `used_depth_height`. -/
theorem rebuildGeometry_table_lengths (s : CliffDetector) (vertical_fov : ℝ) :
    (rebuildGeometry s vertical_fov).delta_row.length = s.used_depth_height ∧
    (rebuildGeometry s vertical_fov).dist_to_ground.length = s.used_depth_height ∧
    (rebuildGeometry s vertical_fov).tilt_compensation_factor.length = s.used_depth_height := by
  refine ⟨?_, ?_, ?_⟩ <;>
    simp [rebuildGeometry, calcDeltaAngleForImgRows, calcGroundDistancesForImgRows,
      calcTiltCompensationFactorsForImgRows]

/-- Helper: the cliff counter of a block does not depend on
`block_points_thresh`. -/
theorem cliffPointCount_setBlockPointsThresh (s : CliffDetector) (dist : List ℕ)
    (factor : List ℝ) (f : DepthFrame) (t r0 c0 : ℕ) :
    cliffPointCount (s.setBlockPointsThresh t) dist factor f r0 c0 =
      cliffPointCount s dist factor f r0 c0 := rfl

/-- Helper: the scanned block grid does not depend on
`block_points_thresh`. -/
theorem allBlocks_setBlockPointsThresh (s : CliffDetector) (f : DepthFrame) (t : ℕ) :
    allBlocks (s.setBlockPointsThresh t) f = allBlocks s f := rfl

/-- Helper: block classification is monotone in the threshold. -/
theorem blockIsCliff_thresh_mono (s : CliffDetector) (dist : List ℕ) (factor : List ℝ)
    (f : DepthFrame) (r0 c0 : ℕ) {t1 t2 : ℕ} (h : t1 ≤ t2)
    (h2 : blockIsCliff (s.setBlockPointsThresh t2) dist factor f r0 c0 = true) :
    blockIsCliff (s.setBlockPointsThresh t1) dist factor f r0 c0 = true := by
  rw [blockIsCliff, decide_eq_true_eq] at h2 ⊢
  rw [cliffPointCount_setBlockPointsThresh] at h2 ⊢
  exact le_trans h h2

/-- C2: block classification is monotone non-increasing in
`block_points_threshold`: with `t1 <= t2`, every block classified as a
cliff at threshold `t2` is also classified as a cliff at threshold
`t1`, so raising the threshold never increases the number of cliff
blocks. -/
theorem cliffBlocks_antitone_in_thresh (s : CliffDetector) (dist : List ℕ)
    (factor : List ℝ) (f : DepthFrame) (t1 t2 : ℕ) (h : t1 ≤ t2) :
    (∀ b ∈ cliffBlocks (s.setBlockPointsThresh t2) dist factor f,
      b ∈ cliffBlocks (s.setBlockPointsThresh t1) dist factor f) ∧
    (cliffBlocks (s.setBlockPointsThresh t2) dist factor f).length ≤
      (cliffBlocks (s.setBlockPointsThresh t1) dist factor f).length := by
  constructor
  · intro b hb
    rw [cliffBlocks, List.mem_filter] at hb ⊢
    rw [allBlocks_setBlockPointsThresh] at hb ⊢
    exact ⟨hb.1, blockIsCliff_thresh_mono s dist factor f b.1 b.2 h hb.2⟩
  · rw [cliffBlocks, cliffBlocks, allBlocks_setBlockPointsThresh,
      allBlocks_setBlockPointsThresh, ← List.countP_eq_length_filter,
      ← List.countP_eq_length_filter]
    exact List.countP_mono_left
      (fun b _ hb => blockIsCliff_thresh_mono s dist factor f b.1 b.2 h hb)

/-- C4 (amended): a block is classified as a cliff iff its cliff
counter is `>= block_points_threshold` (so a block exactly at the
threshold counts), and, provided `block_points_threshold >= 1`, a
block containing zero valid sampled pixels is never classified as a
cliff. -/
theorem blockIsCliff_iff_thresh (s : CliffDetector) (dist : List ℕ) (factor : List ℝ)
    (f : DepthFrame) (r0 c0 : ℕ) :
    (blockIsCliff s dist factor f r0 c0 = true ↔
      s.block_points_thresh ≤ cliffPointCount s dist factor f r0 c0) ∧
    (1 ≤ s.block_points_thresh → validPointCount s f r0 c0 = 0 →
      blockIsCliff s dist factor f r0 c0 = false) := by
  constructor
  · rw [blockIsCliff, decide_eq_true_eq]
  · intro ht hv
    have hle : cliffPointCount s dist factor f r0 c0 ≤ validPointCount s f r0 c0 := by
      rw [cliffPointCount, validPointCount]
      refine List.countP_mono_left (fun p _ hp => ?_)
      rw [pixelCliffB, Bool.and_eq_true] at hp
      exact hp.1
    rw [blockIsCliff, decide_eq_false_iff_not]
    omega

/-- Helper: a raw sample of 0 is invalid. -/
theorem pixelValidB_zero (s : CliffDetector) : pixelValidB s 0 = false := by
  simp [pixelValidB]

/-- Helper: the geometry-table index of a row ignores pixel data. -/
theorem tableIdx_updatePixel (s : CliffDetector) (f : DepthFrame) (p : ℕ × ℕ)
    (v r : ℕ) : tableIdx s (updatePixel f p v) r = tableIdx s f r := rfl

/-- Helper: a pixel's cliff vote depends on the frame only through the
pixel's own sample and the frame height. -/
theorem pixelCliffB_congr (s : CliffDetector) (dist : List ℕ) (factor : List ℝ)
    {f g : DepthFrame} (q : ℕ × ℕ) (hd : g.data q.1 q.2 = f.data q.1 q.2)
    (hh : g.height = f.height) :
    pixelCliffB s dist factor g q = pixelCliffB s dist factor f q := by
  rw [pixelCliffB, pixelCliffB, cliffCompB, cliffCompB, tableIdx, tableIdx, hd, hh]

/-- Helper: a pixel's ground vote depends on the frame only through
the pixel's own sample and the frame height. -/
theorem pixelGroundB_congr (s : CliffDetector) (dist : List ℕ) (factor : List ℝ)
    {f g : DepthFrame} (q : ℕ × ℕ) (hd : g.data q.1 q.2 = f.data q.1 q.2)
    (hh : g.height = f.height) :
    pixelGroundB s dist factor g q = pixelGroundB s dist factor f q := by
  rw [pixelGroundB, pixelGroundB, cliffCompB, cliffCompB, tableIdx, tableIdx, hd, hh]

/-- C3: a sampled pixel whose raw sample is 0 or outside
`[range_min, range_max]` (in millimetres) votes neither cliff nor
ground; replacing it by the canonical invalid sample 0 changes no
block counter; and such a pixel never causes the detection call to
fail (the error checks read no pixel data). -/
theorem invalid_pixel_no_vote (s : CliffDetector) (dist : List ℕ) (factor : List ℝ)
    (f : DepthFrame) (p : ℕ × ℕ) (cam : PinholeCameraModel)
    (h : pixelValidB s (f.data p.1 p.2) = false) :
    pixelCliffB s dist factor f p = false ∧
    pixelGroundB s dist factor f p = false ∧
    (∀ r0 c0,
      cliffPointCount s dist factor (updatePixel f p 0) r0 c0 =
        cliffPointCount s dist factor f r0 c0 ∧
      groundPointCount s dist factor (updatePixel f p 0) r0 c0 =
        groundPointCount s dist factor f r0 c0) ∧
    detectErr s cam (updatePixel f p 0) = detectErr s cam f := by
  have key : ∀ q : ℕ × ℕ,
      pixelCliffB s dist factor (updatePixel f p 0) q = pixelCliffB s dist factor f q ∧
      pixelGroundB s dist factor (updatePixel f p 0) q = pixelGroundB s dist factor f q := by
    intro q
    by_cases hq : q.1 = p.1 ∧ q.2 = p.2
    · have h1 : (updatePixel f p 0).data q.1 q.2 = 0 := by
        simp [updatePixel, hq]
      have h2 : f.data q.1 q.2 = f.data p.1 p.2 := by rw [hq.1, hq.2]
      constructor
      · rw [pixelCliffB, pixelCliffB, h1, h2, pixelValidB_zero, h, Bool.false_and,
          Bool.false_and]
      · rw [pixelGroundB, pixelGroundB, h1, h2, pixelValidB_zero, h, Bool.false_and,
          Bool.false_and]
    · have h1 : (updatePixel f p 0).data q.1 q.2 = f.data q.1 q.2 := by
        simp [updatePixel, hq]
      exact ⟨pixelCliffB_congr s dist factor q h1 rfl,
        pixelGroundB_congr s dist factor q h1 rfl⟩
  refine ⟨?_, ?_, ?_, rfl⟩
  · rw [pixelCliffB, h, Bool.false_and]
  · rw [pixelGroundB, h, Bool.false_and]
  · intro r0 c0
    constructor
    · rw [cliffPointCount, cliffPointCount]
      exact List.countP_congr (fun q _ => by rw [(key q).1])
    · rw [groundPointCount, groundPointCount]
      exact List.countP_congr (fun q _ => by rw [(key q).2])

/-- Concrete detector state used by the witnesses: sane configuration
(ranges 1 m to 5 m, mount height 1 m, no tilt, margin 0, block
threshold 1, unit block and steps, one used row) with fresh cached
tables for a one-row image: expected ground distance 5000 mm, tilt
factor 1. -/
def sampleDet : CliffDetector where
  range_min := 1
  range_max := 5
  sensor_mount_height := 1
  sensor_tilt_angle := 0
  publish_depth_enable := false
  cam_model_update := false
  used_depth_height := 1
  block_size := 1
  block_points_thresh := 1
  depth_image_step_row := 1
  depth_image_step_col := 1
  ground_margin := 0
  depth_sensor_params_update := false
  tables_stale := false
  dist_to_ground := [5000]
  tilt_compensation_factor := [1]
  delta_row := [0]

/-- Concrete camera model used by the witnesses: initialised, 1x1
resolution, unit focal lengths, principal point at the origin. -/
def sampleCam : PinholeCameraModel where
  initialized := true
  width := 1
  height := 1
  fx := 1
  fy := 1
  cx := 0
  cy := 0

/-- Concrete 1x1 frame whose only sample equals the expected ground
distance of `sampleDet`. -/
def sampleFrame : DepthFrame where
  width := 1
  height := 1
  data := fun _ _ => 5000

/-- Concrete 1x1 frame whose only sample is the invalid value 0. -/
def zeroFrame : DepthFrame where
  width := 1
  height := 1
  data := fun _ _ => 0

/-- Concrete 1x1 frame whose only sample is out of range (7 m with a
5 m maximum range). -/
def farFrame : DepthFrame where
  width := 1
  height := 1
  data := fun _ _ => 7000

/-- Witness for C2: the monotonicity theorem applied at a concrete
state, frame, tables and thresholds 1 <= 2. -/
theorem cliffBlocks_antitone_in_thresh_witness :
    1 ≤ 2 ∧
    ((∀ b ∈ cliffBlocks (sampleDet.setBlockPointsThresh 2) [5000] [1] sampleFrame,
        b ∈ cliffBlocks (sampleDet.setBlockPointsThresh 1) [5000] [1] sampleFrame) ∧
      (cliffBlocks (sampleDet.setBlockPointsThresh 2) [5000] [1] sampleFrame).length ≤
        (cliffBlocks (sampleDet.setBlockPointsThresh 1) [5000] [1] sampleFrame).length) :=
  ⟨by decide, cliffBlocks_antitone_in_thresh sampleDet [5000] [1] sampleFrame 1 2 (by decide)⟩

/-- Counterexample for C4 as stated: with `block_points_threshold = 0`
a block with zero valid sampled pixels (an all-zero frame) still has
`cliff counter >= threshold` and is classified as a cliff, so the
zero-valid-samples clause fails without a positive threshold. -/
theorem blockIsCliff_zero_thresh_counterexample :
    validPointCount (sampleDet.setBlockPointsThresh 0) zeroFrame 0 0 = 0 ∧
    blockIsCliff (sampleDet.setBlockPointsThresh 0) [5000] [1] zeroFrame 0 0 = true := by
  refine ⟨by decide, ?_⟩
  rw [blockIsCliff, decide_eq_true_eq]
  exact Nat.zero_le _

/-- Witness for C4 (amended): the classification theorem applied at a
concrete state with threshold 1 and an all-invalid block. -/
theorem blockIsCliff_iff_thresh_witness :
    (1 ≤ sampleDet.block_points_thresh ∧ validPointCount sampleDet zeroFrame 0 0 = 0) ∧
    blockIsCliff sampleDet [5000] [1] zeroFrame 0 0 = false :=
  ⟨⟨by decide, by decide⟩,
    (blockIsCliff_iff_thresh sampleDet [5000] [1] zeroFrame 0 0).2 (by decide) (by decide)⟩

/-- Witness for C3: the invalid-pixel theorem applied at a concrete
state and a frame whose only sample (7000 mm) exceeds the maximum
range. -/
theorem invalid_pixel_no_vote_witness :
    pixelValidB sampleDet (farFrame.data 0 0) = false ∧
    (pixelCliffB sampleDet [5000] [1] farFrame (0, 0) = false ∧
      pixelGroundB sampleDet [5000] [1] farFrame (0, 0) = false ∧
      (∀ r0 c0,
        cliffPointCount sampleDet [5000] [1] (updatePixel farFrame (0, 0) 0) r0 c0 =
          cliffPointCount sampleDet [5000] [1] farFrame r0 c0 ∧
        groundPointCount sampleDet [5000] [1] (updatePixel farFrame (0, 0) 0) r0 c0 =
          groundPointCount sampleDet [5000] [1] farFrame r0 c0) ∧
      detectErr sampleDet sampleCam (updatePixel farFrame (0, 0) 0) =
        detectErr sampleDet sampleCam farFrame) :=
  ⟨by decide,
    invalid_pixel_no_vote sampleDet [5000] [1] farFrame (0, 0) sampleCam (by decide)⟩

/-- Helper: the ground-distance table entry produced by a rebuild for
row `i` of the used region. -/
theorem rebuild_dist_entry (s : CliffDetector) (vertical_fov : ℝ) (i : ℕ)
    (hi : i < s.used_depth_height) :
    (rebuildGeometry s vertical_fov).dist_to_ground.getD i 0 =
      if deltaRowVal s vertical_fov i + tiltRad s ≤ 0 then groundSentinel s
      else Nat.floor ((1000 * (s.sensor_mount_height : ℝ)) /
        Real.sin (deltaRowVal s vertical_fov i + tiltRad s)) := by
  simp [rebuildGeometry, calcTiltCompensationFactorsForImgRows,
    calcGroundDistancesForImgRows, calcDeltaAngleForImgRows, tiltRad, groundSentinel,
    deltaRowVal, List.getElem?_range hi, hi]

/-- C7: for every used-region row whose ray is at or above the horizon
(its delta angle plus the tilt angle does not point toward the
ground), the rebuilt expected-ground-distance table holds the finite
sentinel meaning "no ground expected"; and, the table being a list of
naturals as in the source (`std::vector<unsigned int>`), no entry is
negative. -/
theorem ground_distances_horizon_clamped (s : CliffDetector) (vertical_fov : ℝ)
    (i : ℕ) (hi : i < s.used_depth_height) :
    (deltaRowVal s vertical_fov i + tiltRad s ≤ 0 →
      (rebuildGeometry s vertical_fov).dist_to_ground.getD i 0 = groundSentinel s) ∧
    (∀ d ∈ (rebuildGeometry s vertical_fov).dist_to_ground, (0 : ℤ) ≤ (d : ℤ)) := by
  constructor
  · intro hhor
    rw [rebuild_dist_entry s vertical_fov i hi, if_pos hhor]
  · intro d _
    omega

/-- Witness for C7: the horizon-clamping theorem applied at a concrete
state (one used row of five, no tilt, zero field of view, so the row
ray is exactly at the horizon). -/
theorem ground_distances_horizon_clamped_witness :
    (0 < (sampleDet.setUsedDepthHeight 5).used_depth_height ∧
      deltaRowVal (sampleDet.setUsedDepthHeight 5) 0 0 +
        tiltRad (sampleDet.setUsedDepthHeight 5) ≤ 0) ∧
    (rebuildGeometry (sampleDet.setUsedDepthHeight 5) 0).dist_to_ground.getD 0 0 =
      groundSentinel (sampleDet.setUsedDepthHeight 5) := by
  have hhor : deltaRowVal (sampleDet.setUsedDepthHeight 5) 0 0 +
      tiltRad (sampleDet.setUsedDepthHeight 5) ≤ 0 := by
    simp [deltaRowVal, tiltRad, sampleDet, CliffDetector.setUsedDepthHeight]
  exact ⟨⟨by decide, hhor⟩,
    (ground_distances_horizon_clamped (sampleDet.setUsedDepthHeight 5) 0 0
      (by decide)).1 hhor⟩

/-- Helper: a nonzero ray has positive squared norm. -/
theorem sq_norm_pos_of_ne_zero {r : Point3d} (hr : r ≠ ⟨0, 0, 0⟩) :
    0 < r.x ^ 2 + r.y ^ 2 + r.z ^ 2 := by
  rcases lt_or_eq_of_le (by positivity : (0 : ℝ) ≤ r.x ^ 2 + r.y ^ 2 + r.z ^ 2) with h | h
  · exact h
  · exfalso
    apply hr
    obtain ⟨x, y, z⟩ := r
    dsimp only at h ⊢
    have hx : x = 0 := by nlinarith [sq_nonneg x, sq_nonneg y, sq_nonneg z]
    have hy : y = 0 := by nlinarith [sq_nonneg x, sq_nonneg y, sq_nonneg z]
    have hz : z = 0 := by nlinarith [sq_nonneg x, sq_nonneg y, sq_nonneg z]
    rw [hx, hy, hz]

/-- C8: for every nonzero ray the angle to itself is 0; the angle is
symmetric in its two arguments; and it equals the arccosine of the dot
product divided by the product of the Euclidean norms. -/
theorem angleBetweenRays_spec (r1 r2 r : Point3d) (hr : r ≠ ⟨0, 0, 0⟩) :
    angleBetweenRays r r = 0 ∧
    angleBetweenRays r1 r2 = angleBetweenRays r2 r1 ∧
    angleBetweenRays r1 r2 =
      Real.arccos ((r1.x * r2.x + r1.y * r2.y + r1.z * r2.z) /
        (Real.sqrt (r1.x ^ 2 + r1.y ^ 2 + r1.z ^ 2) *
          Real.sqrt (r2.x ^ 2 + r2.y ^ 2 + r2.z ^ 2))) := by
  refine ⟨?_, ?_, rfl⟩
  · have hq : 0 < r.x ^ 2 + r.y ^ 2 + r.z ^ 2 := sq_norm_pos_of_ne_zero hr
    have hlen : lengthOfVector r * lengthOfVector r = r.x ^ 2 + r.y ^ 2 + r.z ^ 2 :=
      Real.mul_self_sqrt (le_of_lt hq)
    have hdot : dot3 r r = r.x ^ 2 + r.y ^ 2 + r.z ^ 2 := by
      rw [dot3]
      ring
    rw [angleBetweenRays, hlen, hdot, div_self (ne_of_gt hq), Real.arccos_one]
  · have hdot : dot3 r1 r2 = dot3 r2 r1 := by
      rw [dot3, dot3]
      ring
    rw [angleBetweenRays, angleBetweenRays, hdot, mul_comm]

/-- Witness for C8: the theorem applied to the concrete rays (1,0,0),
(0,1,0) and (0,0,1). -/
theorem angleBetweenRays_spec_witness :
    (⟨1, 0, 0⟩ : Point3d) ≠ ⟨0, 0, 0⟩ ∧
    (angleBetweenRays ⟨1, 0, 0⟩ ⟨1, 0, 0⟩ = 0 ∧
      angleBetweenRays ⟨0, 1, 0⟩ ⟨0, 0, 1⟩ = angleBetweenRays ⟨0, 0, 1⟩ ⟨0, 1, 0⟩ ∧
      angleBetweenRays ⟨0, 1, 0⟩ ⟨0, 0, 1⟩ =
        Real.arccos ((0 * 0 + 1 * 0 + 0 * 1) /
          (Real.sqrt (0 ^ 2 + 1 ^ 2 + 0 ^ 2) * Real.sqrt (0 ^ 2 + 0 ^ 2 + 1 ^ 2)))) :=
  have hne : (⟨1, 0, 0⟩ : Point3d) ≠ ⟨0, 0, 0⟩ :=
    fun h => one_ne_zero (congrArg Point3d.x h)
  ⟨hne, angleBetweenRays_spec ⟨0, 1, 0⟩ ⟨0, 0, 1⟩ ⟨1, 0, 0⟩ hne⟩

/-- C9: every configuration setter stores the supplied value as given
(no validation at set time, so out-of-range values such as
`range_min >= range_max` are accepted), and an invalid configuration
surfaces only at the next detection call, as the lazily detected
`invalidConfiguration` error. -/
theorem setters_store_without_validation (s : CliffDetector) (q : ℚ) (n : ℕ)
    (cam : PinholeCameraModel) (f : DepthFrame) :
    (s.setMinRange q).range_min = q ∧
    (s.setMaxRange q).range_max = q ∧
    (s.setSensorMountHeight q).sensor_mount_height = q ∧
    (s.setSensorTiltAngle q).sensor_tilt_angle = q ∧
    (s.setGroundMargin q).ground_margin = q ∧
    (s.setUsedDepthHeight n).used_depth_height = n ∧
    (s.setBlockSize n).block_size = n ∧
    (s.setBlockPointsThresh n).block_points_thresh = n ∧
    (s.setDepthImgStepRow n).depth_image_step_row = n ∧
    (s.setDepthImgStepCol n).depth_image_step_col = n ∧
    (cam.initialized = true → f.width = cam.width → f.height = cam.height →
      validConfig s = false →
      detectErr s cam f = some DetectErr.invalidConfiguration) := by
  refine ⟨rfl, rfl, rfl, rfl, rfl, rfl, rfl, rfl, rfl, rfl, ?_⟩
  intro h1 h2 h3 h4
  rw [detectErr, h1, h2, h3, h4]
  simp

/-- Witness for C9: the theorem applied at a concrete state whose
minimum range (5 m) exceeds its maximum range (1 m): the setters
accepted the values, and the detection call reports
`invalidConfiguration`. -/
theorem setters_store_without_validation_witness :
    (validConfig ((sampleDet.setMinRange 5).setMaxRange 1) = false ∧
      ((sampleDet.setMinRange 5).setMaxRange 1).range_max = 1) ∧
    detectErr ((sampleDet.setMinRange 5).setMaxRange 1) sampleCam sampleFrame =
      some DetectErr.invalidConfiguration :=
  ⟨⟨by decide, by decide⟩,
    ((setters_store_without_validation ((sampleDet.setMinRange 5).setMaxRange 1) 0 0
      sampleCam sampleFrame).2.2.2.2.2.2.2.2.2.2) rfl rfl rfl (by decide)⟩

/-- C1 (amended): for every depth frame in which each sampled pixel's
tilt-corrected distance equals exactly its row's expected ground
distance, provided `ground_margin >= 0` and
`block_points_threshold >= 1`, any polygon returned by `detectCliff`
is empty. -/
theorem detectCliff_empty_on_exact_ground (s : CliffDetector)
    (cam : PinholeCameraModel) (f : DepthFrame)
    (ht : 1 ≤ s.block_points_thresh) (hm : 0 ≤ s.ground_margin)
    (hpix : ∀ b ∈ allBlocks s f, ∀ p ∈ blockPixels s.block_size b.1 b.2,
      (f.data p.1 p.2 : ℝ) * factorAt (tablesFor s cam).2 (tableIdx s f p.1) =
        (distAt (tablesFor s cam).1 (tableIdx s f p.1) : ℝ)) :
    ∀ poly, detectCliff s cam f = Except.ok poly → poly = [] := by
  intro poly hok
  rw [detectCliff] at hok
  cases hde : detectErr s cam f with
  | some e =>
      rw [hde] at hok
      exact absurd hok (by simp)
  | none =>
      rw [hde] at hok
      have hpoly : poly =
          findCliffInDepthImage s cam (tablesFor s cam).1 (tablesFor s cam).2 f := by
        cases hok
        rfl
      have hmargin : (0 : ℝ) ≤ 1000 * (s.ground_margin : ℝ) := by
        have hm2 : (0 : ℝ) ≤ (s.ground_margin : ℝ) := by exact_mod_cast hm
        linarith
      have hblock : ∀ r0 ∈ rowStarts s f, ∀ c0 ∈ colStarts s f,
          blockIsCliff s (tablesFor s cam).1 (tablesFor s cam).2 f r0 c0 = false := by
        intro r0 hr0 c0 hc0
        have hbmem : (r0, c0) ∈ allBlocks s f := by
          rw [allBlocks, List.mem_flatMap]
          exact ⟨r0, hr0, List.mem_map.mpr ⟨c0, hc0, rfl⟩⟩
        have hcnt : cliffPointCount s (tablesFor s cam).1 (tablesFor s cam).2 f r0 c0 = 0 := by
          rw [cliffPointCount, List.countP_eq_zero]
          intro p hp
          have hcomp : cliffCompB s (tablesFor s cam).1 (tablesFor s cam).2 f p = false := by
            rw [cliffCompB, decide_eq_false_iff_not]
            rw [hpix (r0, c0) hbmem p hp, gt_iff_lt, not_lt]
            linarith
          simp [pixelCliffB, hcomp]
        rw [blockIsCliff, hcnt, decide_eq_false_iff_not]
        omega
      have htop : topCliffBlocks s (tablesFor s cam).1 (tablesFor s cam).2 f = [] := by
        rw [topCliffBlocks, List.filterMap_eq_nil_iff]
        intro c0 hc0
        rw [Option.map_eq_none', List.head?_eq_none_iff, List.filter_eq_nil_iff]
        intro r0 hr0
        simp [hblock r0 hr0 c0 hc0]
      rw [hpoly, findCliffInDepthImage, htop]
      rfl

/-- Witness for C1 (amended): the theorem applied at the concrete
sample state, camera and flat-ground frame (every sample 5000 mm, the
cached expected ground distance, with tilt factor 1). -/
theorem detectCliff_empty_on_exact_ground_witness :
    (1 ≤ sampleDet.block_points_thresh ∧ 0 ≤ sampleDet.ground_margin ∧
      (∀ b ∈ allBlocks sampleDet sampleFrame,
        ∀ p ∈ blockPixels sampleDet.block_size b.1 b.2,
        (sampleFrame.data p.1 p.2 : ℝ) *
            factorAt (tablesFor sampleDet sampleCam).2 (tableIdx sampleDet sampleFrame p.1) =
          (distAt (tablesFor sampleDet sampleCam).1 (tableIdx sampleDet sampleFrame p.1) : ℝ))) ∧
    (∀ poly, detectCliff sampleDet sampleCam sampleFrame = Except.ok poly → poly = []) := by
  have hpix : ∀ b ∈ allBlocks sampleDet sampleFrame,
      ∀ p ∈ blockPixels sampleDet.block_size b.1 b.2,
      (sampleFrame.data p.1 p.2 : ℝ) *
          factorAt (tablesFor sampleDet sampleCam).2 (tableIdx sampleDet sampleFrame p.1) =
        (distAt (tablesFor sampleDet sampleCam).1 (tableIdx sampleDet sampleFrame p.1) : ℝ) := by
    intro b hb p hp
    rw [show allBlocks sampleDet sampleFrame = [(0, 0)] from rfl] at hb
    have hb2 : b = (0, 0) := by simpa using hb
    subst hb2
    rw [show blockPixels sampleDet.block_size 0 0 = [(0, 0)] from rfl] at hp
    have hp2 : p = (0, 0) := by simpa using hp
    subst hp2
    rw [show tablesFor sampleDet sampleCam = ([5000], [1]) from rfl]
    simp [factorAt, distAt, tableIdx, sampleFrame, sampleDet]
  exact ⟨⟨by decide, by decide, hpix⟩,
    detectCliff_empty_on_exact_ground sampleDet sampleCam sampleFrame
      (by decide) (by decide) hpix⟩

/-- Helper: on the sample frame, every sampled pixel's corrected
distance equals its row's expected ground distance, for any detector
state whose scanned grid, block pixels, tables and table index reduce
to the sample ones. -/
theorem pix_exact_of_tables (s : CliffDetector)
    (h1 : allBlocks s sampleFrame = [(0, 0)])
    (h2 : blockPixels s.block_size 0 0 = [(0, 0)])
    (h3 : tablesFor s sampleCam = ([5000], [1]))
    (h4 : tableIdx s sampleFrame 0 = 0) :
    ∀ b ∈ allBlocks s sampleFrame, ∀ p ∈ blockPixels s.block_size b.1 b.2,
      (sampleFrame.data p.1 p.2 : ℝ) *
          factorAt (tablesFor s sampleCam).2 (tableIdx s sampleFrame p.1) =
        (distAt (tablesFor s sampleCam).1 (tableIdx s sampleFrame p.1) : ℝ) := by
  intro b hb p hp
  rw [h1] at hb
  have hb2 : b = (0, 0) := by simpa using hb
  subst hb2
  rw [h2] at hp
  have hp2 : p = (0, 0) := by simpa using hp
  subst hp2
  rw [h3, h4]
  simp [factorAt, distAt, sampleFrame]

/-- Counterexample for C1 as stated: two concrete configurations on
which every sampled pixel's corrected distance equals exactly its
row's expected ground distance and yet `detectCliff` returns a
nonempty polygon: one with `block_points_threshold = 0` (the empty
cliff vote already reaches the threshold) and one with
`ground_margin = -1` (equality already exceeds expected-plus-margin). -/
theorem detectCliff_empty_on_exact_ground_counterexample :
    ((∀ b ∈ allBlocks (sampleDet.setBlockPointsThresh 0) sampleFrame,
        ∀ p ∈ blockPixels (sampleDet.setBlockPointsThresh 0).block_size b.1 b.2,
        (sampleFrame.data p.1 p.2 : ℝ) *
            factorAt (tablesFor (sampleDet.setBlockPointsThresh 0) sampleCam).2
              (tableIdx (sampleDet.setBlockPointsThresh 0) sampleFrame p.1) =
          (distAt (tablesFor (sampleDet.setBlockPointsThresh 0) sampleCam).1
              (tableIdx (sampleDet.setBlockPointsThresh 0) sampleFrame p.1) : ℝ)) ∧
      ¬ (∀ poly, detectCliff (sampleDet.setBlockPointsThresh 0) sampleCam sampleFrame =
          Except.ok poly → poly = [])) ∧
    ((∀ b ∈ allBlocks (sampleDet.setGroundMargin (-1)) sampleFrame,
        ∀ p ∈ blockPixels (sampleDet.setGroundMargin (-1)).block_size b.1 b.2,
        (sampleFrame.data p.1 p.2 : ℝ) *
            factorAt (tablesFor (sampleDet.setGroundMargin (-1)) sampleCam).2
              (tableIdx (sampleDet.setGroundMargin (-1)) sampleFrame p.1) =
          (distAt (tablesFor (sampleDet.setGroundMargin (-1)) sampleCam).1
              (tableIdx (sampleDet.setGroundMargin (-1)) sampleFrame p.1) : ℝ)) ∧
      ¬ (∀ poly, detectCliff (sampleDet.setGroundMargin (-1)) sampleCam sampleFrame =
          Except.ok poly → poly = [])) := by
  constructor
  · constructor
    · exact pix_exact_of_tables (sampleDet.setBlockPointsThresh 0) rfl rfl rfl rfl
    · have hcliff : blockIsCliff (sampleDet.setBlockPointsThresh 0) [5000] [1]
          sampleFrame 0 0 = true := by
        rw [blockIsCliff, decide_eq_true_eq]
        exact Nat.zero_le _
      have htop : topCliffBlocks (sampleDet.setBlockPointsThresh 0) [5000] [1]
          sampleFrame = [(0, 0)] := by
        rw [topCliffBlocks,
          show colStarts (sampleDet.setBlockPointsThresh 0) sampleFrame = [0] from rfl,
          show rowStarts (sampleDet.setBlockPointsThresh 0) sampleFrame = [0] from rfl]
        simp [hcliff]
      have hdc : detectCliff (sampleDet.setBlockPointsThresh 0) sampleCam sampleFrame =
          Except.ok [toGroundPoint (sampleDet.setBlockPointsThresh 0) sampleCam (0, 0)] := by
        have h1 : detectCliff (sampleDet.setBlockPointsThresh 0) sampleCam sampleFrame =
            Except.ok (findCliffInDepthImage (sampleDet.setBlockPointsThresh 0) sampleCam
              [5000] [1] sampleFrame) := rfl
        rw [h1, findCliffInDepthImage, htop]
        rfl
      intro hall
      have h := hall _ hdc
      simp at h
  · constructor
    · exact pix_exact_of_tables (sampleDet.setGroundMargin (-1)) rfl rfl rfl rfl
    · have hcomp : cliffCompB (sampleDet.setGroundMargin (-1)) [5000] [1]
          sampleFrame (0, 0) = true := by
        rw [cliffCompB, decide_eq_true_eq]
        norm_num [factorAt, distAt, tableIdx, sampleFrame, sampleDet,
          CliffDetector.setGroundMargin]
      have hpx : pixelCliffB (sampleDet.setGroundMargin (-1)) [5000] [1]
          sampleFrame (0, 0) = true := by
        rw [pixelCliffB, hcomp,
          show pixelValidB (sampleDet.setGroundMargin (-1))
            (sampleFrame.data (0, 0).1 (0, 0).2) = true by decide]
        rfl
      have hcnt : cliffPointCount (sampleDet.setGroundMargin (-1)) [5000] [1]
          sampleFrame 0 0 = 1 := by
        rw [cliffPointCount,
          show blockPixels (sampleDet.setGroundMargin (-1)).block_size 0 0 = [(0, 0)]
            from rfl, List.countP_cons, hpx]
        rfl
      have hcliff : blockIsCliff (sampleDet.setGroundMargin (-1)) [5000] [1]
          sampleFrame 0 0 = true := by
        rw [blockIsCliff, hcnt]
        rfl
      have htop : topCliffBlocks (sampleDet.setGroundMargin (-1)) [5000] [1]
          sampleFrame = [(0, 0)] := by
        rw [topCliffBlocks,
          show colStarts (sampleDet.setGroundMargin (-1)) sampleFrame = [0] from rfl,
          show rowStarts (sampleDet.setGroundMargin (-1)) sampleFrame = [0] from rfl]
        simp [hcliff]
      have hdc : detectCliff (sampleDet.setGroundMargin (-1)) sampleCam sampleFrame =
          Except.ok [toGroundPoint (sampleDet.setGroundMargin (-1)) sampleCam (0, 0)] := by
        have h1 : detectCliff (sampleDet.setGroundMargin (-1)) sampleCam sampleFrame =
            Except.ok (findCliffInDepthImage (sampleDet.setGroundMargin (-1)) sampleCam
              [5000] [1] sampleFrame) := rfl
        rw [h1, findCliffInDepthImage, htop]
        rfl
      intro hall
      have h := hall _ hdc
      simp at h

end CliffDetectorSpec
